import Mathlib

/-!
Verification of the Tion device orchestrator (tion_btle/operator.py,
device_manager.py, scenarist.py) against its natural-language
specification.  The Python code is shallowly embedded: dictionaries
become association lists or structures of optional fields, datetimes
become natural-number stamps, exceptions become an explicit `PyError`
carried in `Except`, and each method becomes a pure function over an
explicit operator state.
-/

set_option maxRecDepth 4000

namespace TionOp

/-- Association-list lookup, modelling Python `dict.get(key)`. -/
def alookup {α : Type} : List (String × α) → String → Option α
  | [], _ => none
  | (k, v) :: rest, key => if k = key then some v else alookup rest key

/-- Association-list update, modelling Python `dict[key] = value`. -/
def ainsert {α : Type} : List (String × α) → String → α → List (String × α)
  | [], key, value => [(key, value)]
  | (k, v) :: rest, key, value =>
      if k = key then (key, value) :: rest else (k, v) :: ainsert rest key value

/-- Association-list removal, modelling Python `del dict[key]`. -/
def aremove {α : Type} : List (String × α) → String → List (String × α)
  | [], _ => []
  | (k, v) :: rest, key =>
      if k = key then aremove rest key else (k, v) :: aremove rest key

/-- Python exception values, as observed by the operator layer. -/
inductive PyError where
  | keyError (key : String)
  | valueError (msg : String)
  | typeError (msg : String)
  | deviceError (msg : String)
deriving DecidableEq, Repr

/-- `str(e)` for an embedded exception. -/
def errStr : PyError → String
  | .keyError k => k
  | .valueError m => m
  | .typeError m => m
  | .deviceError m => m

/-- Property map returned by a handle's `get()` (`tion_btle` status dict).
Only the keys the operator reads are modelled; `none` means the key is
absent from the dict. -/
structure Props where
  state : Option String
  fan_speed : Option Int
  heater : Option String
  heater_temp : Option Int
  mode : Option String
  in_temp : Option Int
  out_temp : Option Int
  filter_remain : Option Int
  sound : Option String
  light : Option String
deriving DecidableEq, Repr

/-- Python `dict[key]`: raises `KeyError` when the key is absent. -/
def dictIndex {α : Type} (v : Option α) (key : String) : Except PyError α :=
  match v with
  | some x => Except.ok x
  | none => Except.error (PyError.keyError key)

/-- A live Tion device handle during one cycle: the results its
`connect()` / `get()` / `set()` calls would produce, plus its
`connection_status` flag. -/
structure Handle where
  connection_status : Bool
  connectResult : Except PyError Unit
  getResult : Except PyError Props
  setResult : Except PyError Bool
deriving Repr

/-- `DeviceStatus` dataclass of operator.py. -/
structure DeviceStatus where
  device_id : String
  state : String
  fan_speed : Int
  heater_status : String
  heater_temp : Int
  mode : String
  in_temp : Int
  out_temp : Int
  filter_remain : Int
  sound : String
  light : String
  last_updated : Nat
  error : Option String
deriving DecidableEq, Repr

/-- Mutable operator state relevant to the claims: `self._devices`
(the connected-device map) and `self._status_cache`. -/
structure OperState where
  devices : List (String × Handle)
  status_cache : List (String × DeviceStatus)

/-- `DeviceInfo` from device_manager.py, extended with the behaviour of
the handle `_load_device` would construct for it: `connectOk i` tells
whether the i-th `connect()` call (1-indexed) succeeds, and `handle` is
the constructed device object. -/
structure DeviceInfo where
  id : String
  name : String
  type : String
  mac_address : String
  model : String
  is_active : Bool
  is_paired : Bool
  room : Option String
  connectOk : Nat → Bool
  handle : Handle

/-- Trace of one `_load_device` call: how many `connect()` attempts were
made, the backoff sleeps performed (in order), and whether a handle was
returned. -/
structure LoadTrace where
  attempts : Nat
  sleeps : List Nat
  success : Bool
deriving DecidableEq, Repr

/-- The retry loop of `Operator._load_device`: `fuel` counts the
remaining iterations of `for attempt in range(1, retries + 1)` and
`attempt` is the current attempt number.  On failure the loop sleeps
`2 ** attempt` iff `attempt < retries`. -/
def loadDeviceAux (connectOk : Nat → Bool) (retries : Nat) :
    Nat → Nat → LoadTrace
  | 0, _ => { attempts := 0, sleeps := [], success := false }
  | fuel + 1, attempt =>
      if connectOk attempt then
        { attempts := 1, sleeps := [], success := true }
      else
        let rest := loadDeviceAux connectOk retries fuel (attempt + 1)
        { attempts := rest.attempts + 1,
          sleeps := (if attempt < retries then [2 ^ attempt] else []) ++ rest.sleeps,
          success := rest.success }

/-- `Operator._load_device(device_info, retries)` as a trace. -/
def loadDevice (connectOk : Nat → Bool) (retries : Nat) : LoadTrace :=
  loadDeviceAux connectOk retries retries 1

/-- The optional handle `_load_device` returns: the constructed device
object on success, `None` on retry exhaustion. -/
def loadOutcome (info : DeviceInfo) (retries : Nat) : Option Handle :=
  if (loadDevice info.connectOk retries).success then some info.handle else none

/-- Effect of `_load_device` on `self._devices`: on success the handle
is stored under the device id, otherwise the map is untouched. -/
def loadStore (info : DeviceInfo) (retries : Nat)
    (devices : List (String × Handle)) (id : String) : List (String × Handle) :=
  match loadOutcome info retries with
  | some d => ainsert devices id d
  | none => devices

/-- Fresh status built by `_update_devices_status` from a `get()` result:
every key is read with `.get(key, default)`. -/
def mkPolledStatus (device_id : String) (p : Props) (now : Nat) : DeviceStatus :=
  { device_id := device_id,
    state := p.state.getD "unknown",
    fan_speed := p.fan_speed.getD 0,
    heater_status := p.heater.getD "off",
    heater_temp := p.heater_temp.getD 0,
    mode := p.mode.getD "outside",
    in_temp := p.in_temp.getD 0,
    out_temp := p.out_temp.getD 0,
    filter_remain := p.filter_remain.getD 0,
    sound := p.sound.getD "off",
    light := p.light.getD "off",
    last_updated := now,
    error := none }

/-- Error-flagged status written by `_update_devices_status` when a
device's poll raises. -/
def mkErrStatus (device_id : String) (e : String) (now : Nat) : DeviceStatus :=
  { device_id := device_id,
    state := "error",
    fan_speed := 0,
    heater_status := "error",
    heater_temp := 0,
    mode := "unknown",
    in_temp := 0,
    out_temp := 0,
    filter_remain := 0,
    sound := "off",
    light := "off",
    last_updated := now,
    error := some e }

/-- Steps (b)-(c) of one device's poll: reconnect when
`connection_status` is false, then `get()`; the first raised exception
wins. -/
def stepResult (d : Handle) : Except PyError Props :=
  if d.connection_status = false then
    match d.connectResult with
    | Except.error e => Except.error e
    | Except.ok _ => d.getResult
  else d.getResult

/-- The handle one poll iteration works with: the existing map entry, or
the result of `_load_device(device_info)` (3 retries by default). -/
def effHandle (st : OperState) (device_id : String) (info : DeviceInfo) :
    Option Handle :=
  match alookup st.devices device_id with
  | some d => some d
  | none => loadOutcome info 3

/-- Tail of one poll iteration once a handle is at hand: on success the
fresh status is cached; on an exception the error-flagged status is
cached and the device is dropped from the connected map. -/
def pollConnected (st : OperState) (device_id : String) (d : Handle)
    (now : Nat) : OperState :=
  match stepResult d with
  | Except.ok p =>
      { st with status_cache :=
          ainsert st.status_cache device_id (mkPolledStatus device_id p now) }
  | Except.error e =>
      { devices := aremove st.devices device_id,
        status_cache :=
          ainsert st.status_cache device_id (mkErrStatus device_id (errStr e) now) }

/-- One iteration of the `for device_id, device_info in active_devices`
loop of `_update_devices_status`: a device with no map entry is loaded
first (skipped entirely when `_load_device` returns `None`). -/
def pollOne (st : OperState) (device_id : String) (info : DeviceInfo)
    (now : Nat) : OperState :=
  match alookup st.devices device_id with
  | some d => pollConnected st device_id d now
  | none =>
      match loadOutcome info 3 with
      | none => st
      | some d =>
          pollConnected
            { st with devices := ainsert st.devices device_id d }
            device_id d now

/-- `DeviceManager.get_connected_devices`: the active-and-paired devices
keyed by id. -/
def get_connected_devices (rows : List DeviceInfo) :
    List (String × DeviceInfo) :=
  (rows.filter (fun d => d.is_active && d.is_paired)).map (fun d => (d.id, d))

/-- `Operator._update_devices_status`: one polling cycle over the
registry's active-and-paired devices. -/
def updateDevicesStatus (st : OperState) (rows : List DeviceInfo)
    (now : Nat) : OperState :=
  (get_connected_devices rows).foldl
    (fun s pr => pollOne s pr.1 pr.2 now) st

/-- Fresh status built by `get_device_status` on a refresh: only `mode`,
`sound` and `light` are read with `.get(key, default)`; every other key
is a bare `status[key]` that raises `KeyError` when absent. -/
def mkFreshStatus (device_id : String) (p : Props) (now : Nat) :
    Except PyError DeviceStatus := do
  let state ← dictIndex p.state "state"
  let fan_speed ← dictIndex p.fan_speed "fan_speed"
  let heater ← dictIndex p.heater "heater"
  let heater_temp ← dictIndex p.heater_temp "heater_temp"
  let mode := p.mode.getD "outside"
  let in_temp ← dictIndex p.in_temp "in_temp"
  let out_temp ← dictIndex p.out_temp "out_temp"
  let filter_remain ← dictIndex p.filter_remain "filter_remain"
  let sound := p.sound.getD "off"
  let light := p.light.getD "off"
  Except.ok
    { device_id := device_id, state := state, fan_speed := fan_speed,
      heater_status := heater, heater_temp := heater_temp, mode := mode,
      in_temp := in_temp, out_temp := out_temp,
      filter_remain := filter_remain, sound := sound, light := light,
      last_updated := now, error := none }

/-- `Operator.get_device_status`: cached read unless `force_refresh` or
no cache entry; a refresh needs a loaded handle (else `ValueError`) and
re-raises any `get()` failure. -/
def getDeviceStatus (st : OperState) (device_id : String)
    (force_refresh : Bool) (now : Nat) :
    Except PyError (DeviceStatus × OperState) :=
  if force_refresh || (alookup st.status_cache device_id).isNone then
    match alookup st.devices device_id with
    | none =>
        Except.error (PyError.valueError ("Device " ++ device_id ++ " not loaded"))
    | some device =>
        match device.getResult with
        | Except.error e => Except.error e
        | Except.ok props =>
            match mkFreshStatus device_id props now with
            | Except.error e => Except.error e
            | Except.ok s =>
                Except.ok
                  (s, { st with status_cache := ainsert st.status_cache device_id s })
  else
    match alookup st.status_cache device_id with
    | some s => Except.ok (s, st)
    | none =>
        Except.error (PyError.valueError ("Device " ++ device_id ++ " not loaded"))

/-- A handle whose `get()` raises. -/
def wHandleA : Handle :=
  { connection_status := true,
    connectResult := Except.ok (),
    getResult := Except.error (PyError.deviceError "boom"),
    setResult := Except.ok true }

/-- A full, healthy property map. -/
def wProps : Props :=
  { state := some "on", fan_speed := some 2, heater := some "on",
    heater_temp := some 22, mode := some "outside", in_temp := some 5,
    out_temp := some 18, filter_remain := some 90, sound := some "off",
    light := some "off" }

/-- A handle whose `get()` succeeds with `wProps`. -/
def wHandleB : Handle :=
  { connection_status := true,
    connectResult := Except.ok (),
    getResult := Except.ok wProps,
    setResult := Except.ok true }

/-- Registry row for device "a" (connected, `get()` raising). -/
def wInfoA : DeviceInfo :=
  { id := "a", name := "A", type := "TionS3", mac_address := "ma",
    model := "S3", is_active := true, is_paired := true, room := none,
    connectOk := fun _ => true, handle := wHandleA }

/-- Registry row for device "b" (connected, `get()` succeeding). -/
def wInfoB : DeviceInfo :=
  { id := "b", name := "B", type := "TionS4", mac_address := "mb",
    model := "S4", is_active := true, is_paired := true, room := none,
    connectOk := fun _ => true, handle := wHandleB }

/-- Registry row for device "d1" whose every connect attempt fails, so
`_load_device` exhausts its retries. -/
def wInfoNoLoad : DeviceInfo :=
  { id := "d1", name := "D1", type := "TionS3", mac_address := "md",
    model := "S3", is_active := true, is_paired := true, room := none,
    connectOk := fun _ => false, handle := wHandleA }

/-- Initial state for the two-device isolation witness: both handles
already in the connected map, empty cache. -/
def wPollSt : OperState :=
  { devices := [("a", wHandleA), ("b", wHandleB)], status_cache := [] }

/-- Property map with `fan_speed` missing and every other key present. -/
def wPropsNoFan : Props :=
  { state := some "on", fan_speed := none, heater := some "on",
    heater_temp := some 22, mode := some "outside", in_temp := some 5,
    out_temp := some 18, filter_remain := some 90, sound := some "off",
    light := some "off" }

/-- State with a connected handle for "d1" whose `get()` returns
`wPropsNoFan`. -/
def wStNoFan : OperState :=
  { devices := [("d1",
      { connection_status := true,
        connectResult := Except.ok (),
        getResult := Except.ok wPropsNoFan,
        setResult := Except.ok true })],
    status_cache := [] }

/-- A time-of-day as `datetime.time(hour, minute)` (seconds zero). -/
structure TimeOfDay where
  hour : Nat
  minute : Nat
deriving DecidableEq, Repr

/-- Python `time` comparison: lexicographic on (hour, minute). -/
def tleb (a b : TimeOfDay) : Bool :=
  decide (a.hour < b.hour) ||
    (decide (a.hour = b.hour) && decide (a.minute ≤ b.minute))

/-- Minutes since midnight. -/
def tmin (t : TimeOfDay) : Nat := 60 * t.hour + t.minute

/-- One `%H` / `%M` field of `strptime`: one or two digits. -/
def fieldToNat (cs : List Char) : Option Nat :=
  if cs.length = 0 || decide (2 < cs.length) ||
      !(cs.all (fun c => c.isDigit)) then none
  else some (cs.foldl (fun a c => 10 * a + (c.toNat - 48)) 0)

/-- `datetime.strptime(s, "%H:%M").time()`: `none` models the raised
`ValueError` on a malformed string. -/
def parseHM (s : String) : Option TimeOfDay :=
  let cs := s.data
  let hs := cs.takeWhile (fun c => c ≠ ':')
  match cs.dropWhile (fun c => c ≠ ':') with
  | [] => none
  | _ :: ms =>
      match fieldToNat hs, fieldToNat ms with
      | some h, some m =>
          if h < 24 && m < 60 then some { hour := h, minute := m } else none
      | _, _ => none

/-- Capability dict from `DeviceManager.get_device_capabilities` (the
five keys it always populates for a registered device). -/
structure Caps where
  fan_control : Bool
  heater_control : Bool
  temperature_control : Bool
  light_control : Bool
  mode_control : Bool
deriving DecidableEq, Repr

/-- Python `sub in s` on strings. -/
def strContains (sub s : String) : Bool := decide (List.IsInfix sub.data s.data)

/-- `DeviceManager.get_device_capabilities`: an unknown device id gives
the empty dict (modelled `none`); otherwise the declarative capability
table keyed by the device's type string. -/
def get_device_capabilities (registry : List DeviceInfo)
    (device_id : String) : Option Caps :=
  match registry.find? (fun d => d.id == device_id) with
  | none => none
  | some device =>
      some
        { fan_control := true,
          heater_control :=
            strContains "S3" device.type || strContains "S4" device.type,
          temperature_control :=
            strContains "S3" device.type || strContains "S4" device.type,
          light_control := strContains "Lite" device.type,
          mode_control := strContains "S4" device.type }

/-- The `action_params` dict keys the operator reads. -/
structure ActionParams where
  device_id : Option String
  command : Option String
deriving DecidableEq, Repr

/-- The `trigger_params` dict keys the operator reads (`startP` / `endP`
stand for the "start" / "end" keys). -/
structure TriggerParams where
  device_id : Option String
  sensor : Option String
  threshold : Option Int
  comparison : Option String
  startP : Option String
  endP : Option String
deriving DecidableEq, Repr

/-- The Scenario dataclass of scenarist.py. -/
structure Scen where
  id : Int
  name : String
  trigger_type : String
  trigger_params : TriggerParams
  action_params : ActionParams
  is_active : Bool
  created_at : Option Nat
  last_executed : Option Nat
  execution_count : Nat
  last_status : Option Bool
deriving DecidableEq, Repr

/-- `Scenarist.get_scenario`: `SELECT ... WHERE id = ?` — no filter on
`is_active`. -/
def get_scenario (rows : List Scen) (sid : Int) : Option Scen :=
  rows.find? (fun s => s.id == sid)

/-- `Scenarist.get_scenarios()` with the default `active_only=True`. -/
def get_scenarios (rows : List Scen) : List Scen :=
  rows.filter (fun s => s.is_active)

/-- The fixed command set of `Scenarist.validate_action_params`. -/
def valid_commands : List String :=
  ["turn_on", "turn_off", "set_speed", "set_temp", "set_mode"]

/-- `Scenarist.validate_action_params`. -/
def validate_action_params (a : ActionParams) : Bool :=
  a.device_id.isSome && a.command.isSome &&
    (match a.command with
     | some c => valid_commands.contains c
     | none => false)

/-- Result of the `try` body of `execute_scenario` before any bookkeeping:
`blocked` is an early `return False` at the capability gate, `ran b` means
the device write ran and returned `b`. -/
inductive TryOut where
  | blocked
  | ran (b : Bool)
deriving DecidableEq, Repr

/-- `await device.set(scenario.action_params)`: second component records
that `set` was invoked. -/
def devWrite (dev : Handle) : Except PyError TryOut × Bool :=
  match dev.setResult with
  | Except.error e => (Except.error e, true)
  | Except.ok b => (Except.ok (TryOut.ran b), true)

/-- The `try` body of `execute_scenario`: capability gate (indexing the
capability dict raises `KeyError` when it is empty), then the device
write. -/
def execTry (caps : Option Caps) (aps : ActionParams) (dev : Handle) :
    Except PyError TryOut × Bool :=
  match aps.command with
  | none => (Except.error (PyError.keyError "command"), false)
  | some command =>
      if command = "set_temp" then
        match caps with
        | none => (Except.error (PyError.keyError "temperature_control"), false)
        | some c =>
            if c.temperature_control = false then (Except.ok TryOut.blocked, false)
            else devWrite dev
      else if command = "set_mode" then
        match caps with
        | none => (Except.error (PyError.keyError "mode_control"), false)
        | some c =>
            if c.mode_control = false then (Except.ok TryOut.blocked, false)
            else devWrite dev
      else devWrite dev

/-- Result of `execute_scenario`: its boolean outcome, the scenario
object after in-memory bookkeeping (`none` when the id was not found),
and whether the device's `set` was invoked. -/
structure ExecResult where
  result : Bool
  scen : Option Scen
  setCalled : Bool
deriving DecidableEq, Repr

/-- `Operator.execute_scenario(scenario_id)`. -/
def executeScen (rows : List Scen) (registry : List DeviceInfo)
    (devices : List (String × Handle)) (sid : Int) (now : Nat) : ExecResult :=
  match get_scenario rows sid with
  | none => { result := false, scen := none, setCalled := false }
  | some scn =>
      if validate_action_params scn.action_params = false then
        { result := false, scen := some scn, setCalled := false }
      else
        match scn.action_params.device_id with
        | none => { result := false, scen := some scn, setCalled := false }
        | some dk =>
            match alookup devices dk with
            | none => { result := false, scen := some scn, setCalled := false }
            | some dev =>
                match execTry (get_device_capabilities registry dk)
                    scn.action_params dev with
                | (Except.ok TryOut.blocked, sc) =>
                    { result := false, scen := some scn, setCalled := sc }
                | (Except.ok (TryOut.ran b), sc) =>
                    { result := b,
                      scen := some { scn with
                        last_executed := some now,
                        execution_count := scn.execution_count + 1,
                        last_status := some b },
                      setCalled := sc }
                | (Except.error _, sc) =>
                    { result := false,
                      scen := some { scn with
                        last_executed := some now,
                        execution_count := scn.execution_count + 1,
                        last_status := some false },
                      setCalled := sc }

/-- A value produced by `getattr(status, name)`, tagged with its Python
runtime type. -/
inductive AttrVal where
  | str (v : String)
  | int (v : Int)
  | dt (v : Nat)
deriving DecidableEq, Repr

/-- `getattr(status, name, None)` over the `DeviceStatus` fields. -/
def getAttr (status : DeviceStatus) (name : String) : Option AttrVal :=
  if name = "device_id" then some (AttrVal.str status.device_id)
  else if name = "state" then some (AttrVal.str status.state)
  else if name = "fan_speed" then some (AttrVal.int status.fan_speed)
  else if name = "heater_status" then some (AttrVal.str status.heater_status)
  else if name = "heater_temp" then some (AttrVal.int status.heater_temp)
  else if name = "mode" then some (AttrVal.str status.mode)
  else if name = "in_temp" then some (AttrVal.int status.in_temp)
  else if name = "out_temp" then some (AttrVal.int status.out_temp)
  else if name = "filter_remain" then some (AttrVal.int status.filter_remain)
  else if name = "sound" then some (AttrVal.str status.sound)
  else if name = "light" then some (AttrVal.str status.light)
  else if name = "last_updated" then some (AttrVal.dt status.last_updated)
  else if name = "error" then
    match status.error with
    | none => none
    | some m => some (AttrVal.str m)
  else none

/-- Python `current_value > threshold`: ordering a str or datetime
against a number raises `TypeError`. -/
def cmpGtA (v : AttrVal) (t : Int) : Except PyError Bool :=
  match v with
  | AttrVal.int n => Except.ok (decide (t < n))
  | AttrVal.str _ => Except.error (PyError.typeError "str vs int ordering")
  | AttrVal.dt _ => Except.error (PyError.typeError "datetime vs int ordering")

/-- Python `current_value < threshold`. -/
def cmpLtA (v : AttrVal) (t : Int) : Except PyError Bool :=
  match v with
  | AttrVal.int n => Except.ok (decide (n < t))
  | AttrVal.str _ => Except.error (PyError.typeError "str vs int ordering")
  | AttrVal.dt _ => Except.error (PyError.typeError "datetime vs int ordering")

/-- Python `current_value == threshold`: cross-type equality is `False`,
never an error. -/
def cmpEqA (v : AttrVal) (t : Int) : Bool :=
  match v with
  | AttrVal.int n => decide (n = t)
  | AttrVal.str _ => false
  | AttrVal.dt _ => false

/-- `Operator._should_execute_scenario`: `now` is `datetime.now().time()`
and `nowT` the numeric timestamp used for status reads.  Exceptions
raised by `strptime`, dict indexing, `get_device_status` or comparisons
propagate to the caller. -/
def shouldExecuteScen (st : OperState) (scn : Scen) (now : TimeOfDay)
    (nowT : Nat) : Except PyError (Bool × OperState) :=
  if scn.is_active = false then Except.ok (false, st)
  else if scn.trigger_type = "time" then
    match scn.trigger_params.startP with
    | none => Except.error (PyError.keyError "start")
    | some s1 =>
        match scn.trigger_params.endP with
        | none => Except.error (PyError.keyError "end")
        | some s2 =>
            match parseHM s1 with
            | none =>
                Except.error (PyError.valueError "time data does not match format")
            | some t1 =>
                match parseHM s2 with
                | none =>
                    Except.error
                      (PyError.valueError "time data does not match format")
                | some t2 =>
                    if tleb t1 t2 then
                      Except.ok (tleb t1 now && tleb now t2, st)
                    else
                      Except.ok (tleb t1 now || tleb now t2, st)
  else if scn.trigger_type = "sensor" then
    match scn.trigger_params.device_id with
    | none => Except.ok (false, st)
    | some device_id =>
        if device_id = "" then Except.ok (false, st)
        else
          match getDeviceStatus st device_id false nowT with
          | Except.error e => Except.error e
          | Except.ok (status, st1) =>
              match scn.trigger_params.sensor with
              | none => Except.error (PyError.keyError "sensor")
              | some sensor_type =>
                  match scn.trigger_params.threshold with
                  | none => Except.error (PyError.keyError "threshold")
                  | some threshold =>
                      let comparison := scn.trigger_params.comparison.getD "gt"
                      match getAttr status sensor_type with
                      | none => Except.ok (false, st1)
                      | some current =>
                          if comparison = "gt" then
                            match cmpGtA current threshold with
                            | Except.error e => Except.error e
                            | Except.ok b => Except.ok (b, st1)
                          else if comparison = "lt" then
                            match cmpLtA current threshold with
                            | Except.error e => Except.error e
                            | Except.ok b => Except.ok (b, st1)
                          else if comparison = "eq" then
                            Except.ok (cmpEqA current threshold, st1)
                          else Except.ok (false, st1)
  else Except.ok (false, st)

/-- Outcome of one iteration of `_run_scenarios_loop`'s cycle: the final
operator state, the `(scenario id, outcome)` pairs actually executed,
and the exception (if any) that aborted the `for` loop and was caught by
the cycle-level `except`. -/
structure CycleOut where
  st : OperState
  executed : List (Int × Bool)
  err : Option PyError

/-- The `for scenario in scenarios` loop body of `_run_scenarios_loop`:
an exception from evaluating one scenario aborts the rest of the list
(it is caught by the `try` wrapping the whole loop, not per scenario). -/
def cycleRun (rows : List Scen) (registry : List DeviceInfo)
    (st : OperState) (now : TimeOfDay) (nowT : Nat) :
    List Scen → CycleOut
  | [] => { st := st, executed := [], err := none }
  | scn :: rest =>
      match shouldExecuteScen st scn now nowT with
      | Except.error e => { st := st, executed := [], err := some e }
      | Except.ok (b, st1) =>
          if b then
            let r := executeScen rows registry st1.devices scn.id nowT
            let out := cycleRun rows registry st1 now nowT rest
            { st := out.st, executed := (scn.id, r.result) :: out.executed,
              err := out.err }
          else cycleRun rows registry st1 now nowT rest

/-- One full cycle of `_run_scenarios_loop`: fetch the active scenarios,
then run the loop. -/
def runScenCycle (rows : List Scen) (registry : List DeviceInfo)
    (st : OperState) (now : TimeOfDay) (nowT : Nat) : CycleOut :=
  cycleRun rows registry st now nowT (get_scenarios rows)

/-- Outcome of one command-dispatcher setter: the returned/raised value,
the resulting operator state, and whether the device's `set` was
invoked. -/
structure SetOutcome where
  result : Except PyError Bool
  st : OperState
  setCalled : Bool

/-- `Operator._set_device_property`: no handle raises
`ValueError("Device ... not loaded")`; a handle-layer error during
`set()` is swallowed into `False`; on success the cache entry is
invalidated and `True` returned (the handle's own return value is
ignored). -/
def set_device_property (st : OperState) (device_id : String)
    (_prop : String) : SetOutcome :=
  match alookup st.devices device_id with
  | none =>
      { result :=
          Except.error (PyError.valueError ("Device " ++ device_id ++ " not loaded")),
        st := st, setCalled := false }
  | some device =>
      match device.setResult with
      | Except.ok _ =>
          { result := Except.ok true,
            st := { st with status_cache := aremove st.status_cache device_id },
            setCalled := true }
      | Except.error _ =>
          { result := Except.ok false, st := st, setCalled := true }

/-- `ValueError` message of the fan-speed range check. -/
def fanSpeedMsg : String := "Fan speed must be between 0 and 6"

/-- `ValueError` message of the heater-temperature range check. -/
def heaterTempMsg : String := "Temperature must be between 10 and 30°C"

/-- `ValueError` message of the state check. -/
def stateMsg : String := "State must be either \x27on\x27 or \x27off\x27"

/-- `Operator.set_fan_speed`. -/
def set_fan_speed (st : OperState) (device_id : String) (speed : Int) :
    SetOutcome :=
  if speed < 0 || 6 < speed then
    { result := Except.error (PyError.valueError fanSpeedMsg),
      st := st, setCalled := false }
  else set_device_property st device_id "fan_speed"

/-- `Operator.set_heater_temp`. -/
def set_heater_temp (st : OperState) (device_id : String) (temp : Int) :
    SetOutcome :=
  if temp < 10 || 30 < temp then
    { result := Except.error (PyError.valueError heaterTempMsg),
      st := st, setCalled := false }
  else set_device_property st device_id "heater_temp"

/-- `Operator.set_device_state`. -/
def set_device_state (st : OperState) (device_id : String)
    (state : String) : SetOutcome :=
  if !(state = "on" || state = "off") then
    { result := Except.error (PyError.valueError stateMsg),
      st := st, setCalled := false }
  else set_device_property st device_id "state"

/-- A raised `ValueError` carrying one of the three argument-validation
messages (the spec's distinct validation-error kind). -/
def isValidationErr (o : SetOutcome) : Bool :=
  match o.result with
  | Except.error (PyError.valueError m) =>
      m == fanSpeedMsg || m == heaterTempMsg || m == stateMsg
  | _ => false

/-- Scenario with the spec's midnight-wrapping 22:00-06:00 time window. -/
def wTimeScn : Scen :=
  { id := 5, name := "night", trigger_type := "time",
    trigger_params :=
      { device_id := none, sensor := none, threshold := none,
        comparison := none, startP := some "22:00", endP := some "06:00" },
    action_params := { device_id := some "db", command := some "turn_on" },
    is_active := true, created_at := none, last_executed := none,
    execution_count := 0, last_status := none }

/-- Active sensor-trigger scenario watching device "dx". -/
def wSensorScn : Scen :=
  { id := 6, name := "hot", trigger_type := "sensor",
    trigger_params :=
      { device_id := some "dx", sensor := some "fan_speed",
        threshold := some 3, comparison := some "gt",
        startP := none, endP := none },
    action_params := { device_id := some "dx", command := some "turn_on" },
    is_active := true, created_at := none, last_executed := none,
    execution_count := 0, last_status := none }

/-- Active sensor-trigger scenario naming an unknown sensor field. -/
def wSensorUnknownScn : Scen :=
  { id := 7, name := "humid", trigger_type := "sensor",
    trigger_params :=
      { device_id := some "d1", sensor := some "humidity",
        threshold := some 40, comparison := some "gt",
        startP := none, endP := none },
    action_params := { device_id := some "d1", command := some "turn_on" },
    is_active := true, created_at := none, last_executed := none,
    execution_count := 0, last_status := none }

/-- State with a cached status for "d1" and no loaded handle. -/
def wSensorCachedSt : OperState :=
  { devices := [],
    status_cache := [("d1", mkPolledStatus "d1" wProps 3)] }

/-- Registry row: device "d1" of type "TionS3". -/
def wRegS3 : DeviceInfo :=
  { id := "d1", name := "D1", type := "TionS3", mac_address := "m1",
    model := "S3", is_active := true, is_paired := true, room := none,
    connectOk := fun _ => true, handle := wHandleB }

/-- Capability set `get_device_capabilities` derives for "TionS3". -/
def wCapsS3 : Caps :=
  { fan_control := true, heater_control := true,
    temperature_control := true, light_control := false,
    mode_control := false }

/-- Scenario id 1: `set_mode` on device "d1". -/
def wModeScn : Scen :=
  { id := 1, name := "mode", trigger_type := "time",
    trigger_params :=
      { device_id := none, sensor := none, threshold := none,
        comparison := none, startP := some "00:00", endP := some "23:59" },
    action_params := { device_id := some "d1", command := some "set_mode" },
    is_active := true, created_at := none, last_executed := none,
    execution_count := 0, last_status := none }

/-- Scenario id 2: `set_speed` on device "d1". -/
def wSpeedScn : Scen :=
  { id := 2, name := "speed", trigger_type := "time",
    trigger_params :=
      { device_id := none, sensor := none, threshold := none,
        comparison := none, startP := some "00:00", endP := some "23:59" },
    action_params := { device_id := some "d1", command := some "set_speed" },
    is_active := true, created_at := none, last_executed := none,
    execution_count := 0, last_status := none }

/-- Soft-deleted (`is_active = false`) scenario id 3: `turn_on` on
device "d1". -/
def wInactiveScn : Scen :=
  { id := 3, name := "old", trigger_type := "time",
    trigger_params :=
      { device_id := none, sensor := none, threshold := none,
        comparison := none, startP := some "00:00", endP := some "23:59" },
    action_params := { device_id := some "d1", command := some "turn_on" },
    is_active := false, created_at := none, last_executed := none,
    execution_count := 0, last_status := none }

/-- A connected handle whose `set()` raises. -/
def wHandleFailSet : Handle :=
  { connection_status := true,
    connectResult := Except.ok (),
    getResult := Except.ok wProps,
    setResult := Except.error (PyError.deviceError "write failed") }

/-- Operator state for the scenario-cycle example: device "db"
connected, empty cache. -/
def wCycleSt : OperState :=
  { devices := [("db", wHandleB)], status_cache := [] }

/-- Empty operator state. -/
def wEmptySt : OperState := { devices := [], status_cache := [] }

theorem alookup_ainsert_self {α : Type} (l : List (String × α)) (k : String) (v : α) :
    alookup (ainsert l k v) k = some v := by
  induction l with
  | nil => simp [ainsert, alookup]
  | cons hd tl ih =>
      obtain ⟨k0, v0⟩ := hd
      by_cases h : k0 = k
      · simp [ainsert, alookup, h]
      · simp [ainsert, alookup, h, ih]

theorem alookup_ainsert_ne {α : Type} (l : List (String × α)) (k k' : String) (v : α)
    (h : k' ≠ k) : alookup (ainsert l k v) k' = alookup l k' := by
  induction l with
  | nil => simp [ainsert, alookup, Ne.symm h]
  | cons hd tl ih =>
      obtain ⟨k0, v0⟩ := hd
      by_cases h0 : k0 = k
      · subst h0
        simp [ainsert, alookup, Ne.symm h]
      · by_cases h1 : k0 = k'
        · subst h1
          simp [ainsert, alookup, h0, h]
        · simp [ainsert, alookup, h0, h1, ih]

theorem alookup_aremove_self {α : Type} (l : List (String × α)) (k : String) :
    alookup (aremove l k) k = none := by
  induction l with
  | nil => simp [aremove, alookup]
  | cons hd tl ih =>
      obtain ⟨k0, v0⟩ := hd
      by_cases h : k0 = k
      · simp [aremove, h, ih]
      · simp [aremove, alookup, h, ih]

theorem alookup_aremove_ne {α : Type} (l : List (String × α)) (k k' : String)
    (h : k' ≠ k) : alookup (aremove l k) k' = alookup l k' := by
  induction l with
  | nil => simp [aremove]
  | cons hd tl ih =>
      obtain ⟨k0, v0⟩ := hd
      by_cases h0 : k0 = k
      · subst h0
        simp [aremove, alookup, Ne.symm h, ih]
      · simp [aremove, alookup, h0, ih]

theorem loadDeviceAux_succeeds (connectOk : Nat → Bool) (n k : Nat)
    (hf : ∀ i, 1 ≤ i → i ≤ k → connectOk i = false)
    (hs : connectOk (k + 1) = true) (hkn : k + 1 ≤ n) :
    ∀ d a, 1 ≤ a → a + d = k + 1 →
      loadDeviceAux connectOk n (n + 1 - a) a =
        { attempts := d + 1,
          sleeps := (List.range' a d).map (fun i => 2 ^ i),
          success := true } := by
  intro d
  induction d with
  | zero =>
      intro a ha hak
      have haeq : a = k + 1 := by omega
      subst haeq
      have hfuel : n + 1 - (k + 1) = (n - (k + 1)) + 1 := by omega
      rw [hfuel]
      simp [loadDeviceAux, hs]
  | succ d ih =>
      intro a ha hak
      have hak' : a ≤ k := by omega
      have hcf : connectOk a = false := hf a ha hak'
      have hfuel : n + 1 - a = (n + 1 - (a + 1)) + 1 := by omega
      rw [hfuel]
      have hrest := ih (a + 1) (by omega) (by omega)
      simp only [loadDeviceAux, hcf, Bool.false_eq_true, if_false, hrest]
      have han : a < n := by omega
      simp [han, List.range'_succ]

theorem loadDeviceAux_fails (connectOk : Nat → Bool) (n : Nat)
    (hf : ∀ i, 1 ≤ i → i ≤ n → connectOk i = false) :
    ∀ d a, 1 ≤ a → a + d = n + 1 →
      loadDeviceAux connectOk n d a =
        { attempts := d,
          sleeps := (List.range' a (d - 1)).map (fun i => 2 ^ i),
          success := false } := by
  intro d
  induction d with
  | zero => intro a ha hak; simp [loadDeviceAux]
  | succ d ih =>
      intro a ha hak
      have hcf : connectOk a = false := hf a ha (by omega)
      have hrest := ih (a + 1) (by omega) (by omega)
      simp only [loadDeviceAux, hcf, Bool.false_eq_true, if_false, hrest]
      by_cases han : a < n
      · have hd1 : 1 ≤ d := by omega
        have hd : d = (d - 1) + 1 := by omega
        rw [hd]
        simp [han, List.range'_succ]
      · have hd0 : d = 0 := by omega
        subst hd0
        simp [han]

/-- Claim C5: for `maxAttempts = n ≥ 1` and a handle failing its first
`k` connect calls then succeeding on call `k + 1`: if `k < n`, `load`
succeeds after exactly `k + 1` attempts, sleeping `2^1, …, 2^k` between
attempts, and stores the handle under the device id; if `k ≥ n`, `load`
makes exactly `n` attempts, sleeps only after attempts `1, …, n - 1`
(none after the last), returns no handle, and leaves the device id
absent from the connected map. -/
theorem load_device_retry_arithmetic (info : DeviceInfo) (n k : Nat)
    (devices : List (String × Handle)) (id : String)
    (_hn : 1 ≤ n)
    (hf : ∀ i, 1 ≤ i → i ≤ k → info.connectOk i = false)
    (hs : info.connectOk (k + 1) = true) :
    (k < n →
      loadDevice info.connectOk n =
        { attempts := k + 1,
          sleeps := (List.range' 1 k).map (fun i => 2 ^ i),
          success := true } ∧
      alookup (loadStore info n devices id) id = some info.handle) ∧
    (n ≤ k →
      loadDevice info.connectOk n =
        { attempts := n,
          sleeps := (List.range' 1 (n - 1)).map (fun i => 2 ^ i),
          success := false } ∧
      (alookup devices id = none →
        alookup (loadStore info n devices id) id = none)) := by
  constructor
  · intro hkn
    have htr : loadDevice info.connectOk n =
        { attempts := k + 1,
          sleeps := (List.range' 1 k).map (fun i => 2 ^ i),
          success := true } := by
      have := loadDeviceAux_succeeds info.connectOk n k hf hs (by omega) k 1
        (by omega) (by omega)
      simpa [loadDevice] using this
    refine ⟨htr, ?_⟩
    simp [loadStore, loadOutcome, htr, alookup_ainsert_self]
  · intro hnk
    have hf' : ∀ i, 1 ≤ i → i ≤ n → info.connectOk i = false := by
      intro i h1 h2
      exact hf i h1 (by omega)
    have htr : loadDevice info.connectOk n =
        { attempts := n,
          sleeps := (List.range' 1 (n - 1)).map (fun i => 2 ^ i),
          success := false } := by
      have := loadDeviceAux_fails info.connectOk n hf' n 1 (by omega) (by omega)
      simpa [loadDevice] using this
    refine ⟨htr, ?_⟩
    intro habs
    simp [loadStore, loadOutcome, htr, habs]

/-- Witness for C5 at a concrete input: three allowed attempts, first
connect call fails, second succeeds. -/
theorem load_device_retry_arithmetic_witness :
    (1 ≤ 3 ∧ (fun i => decide (i = 2)) (1 + 1) = true) ∧
    (1 < 3 →
      loadDevice (fun i => decide (i = 2)) 3 =
        { attempts := 2, sleeps := [2], success := true } ∧
      alookup (loadStore
        { id := "d1", name := "n", type := "TionS3", mac_address := "m",
          model := "S3", is_active := true, is_paired := true, room := none,
          connectOk := fun i => decide (i = 2),
          handle := { connection_status := true,
                      connectResult := Except.ok (),
                      getResult := Except.error (PyError.deviceError "x"),
                      setResult := Except.ok true } } 3 [] "d1") "d1" =
        some { connection_status := true,
               connectResult := Except.ok (),
               getResult := Except.error (PyError.deviceError "x"),
               setResult := Except.ok true }) := by
  constructor
  · exact ⟨by decide, by decide⟩
  · intro h
    have := load_device_retry_arithmetic
      { id := "d1", name := "n", type := "TionS3", mac_address := "m",
        model := "S3", is_active := true, is_paired := true, room := none,
        connectOk := fun i => decide (i = 2),
        handle := { connection_status := true,
                    connectResult := Except.ok (),
                    getResult := Except.error (PyError.deviceError "x"),
                    setResult := Except.ok true } }
      3 1 [] "d1" (by decide)
      (by intro i h1 h2; have : i = 1 := by omega
          subst this; decide)
      (by decide)
    have h2 := this.1 (by decide)
    simpa [List.range'] using h2

theorem pollOne_frame_cache (st : OperState) (device_id : String)
    (info : DeviceInfo) (now : Nat) (id' : String) (h : id' ≠ device_id) :
    alookup (pollOne st device_id info now).status_cache id' =
      alookup st.status_cache id' := by
  unfold pollOne pollConnected
  cases alookup st.devices device_id with
  | some d =>
      cases hst : stepResult d with
      | ok p => simp [hst, alookup_ainsert_ne _ _ _ _ h]
      | error e => simp [hst, alookup_ainsert_ne _ _ _ _ h]
  | none =>
      cases loadOutcome info 3 with
      | none => simp
      | some d =>
          cases hst : stepResult d with
          | ok p => simp [hst, alookup_ainsert_ne _ _ _ _ h]
          | error e => simp [hst, alookup_ainsert_ne _ _ _ _ h]

theorem pollOne_frame_dev (st : OperState) (device_id : String)
    (info : DeviceInfo) (now : Nat) (id' : String) (h : id' ≠ device_id) :
    alookup (pollOne st device_id info now).devices id' =
      alookup st.devices id' := by
  unfold pollOne pollConnected
  cases alookup st.devices device_id with
  | some d =>
      cases hst : stepResult d with
      | ok p => simp [hst]
      | error e => simp [hst, alookup_aremove_ne _ _ _ h]
  | none =>
      cases loadOutcome info 3 with
      | none => simp
      | some d =>
          cases hst : stepResult d with
          | ok p => simp [hst, alookup_ainsert_ne _ _ _ _ h]
          | error e =>
              simp [hst, alookup_aremove_ne _ _ _ h, alookup_ainsert_ne _ _ _ _ h]

theorem pollOne_own_cache (st : OperState) (device_id : String)
    (info : DeviceInfo) (now : Nat) :
    alookup (pollOne st device_id info now).status_cache device_id =
      (match effHandle st device_id info with
       | none => alookup st.status_cache device_id
       | some d =>
           match stepResult d with
           | Except.ok p => some (mkPolledStatus device_id p now)
           | Except.error e => some (mkErrStatus device_id (errStr e) now)) := by
  unfold pollOne pollConnected effHandle
  cases alookup st.devices device_id with
  | some d =>
      cases hst : stepResult d with
      | ok p => simp [hst, alookup_ainsert_self]
      | error e => simp [hst, alookup_ainsert_self]
  | none =>
      cases loadOutcome info 3 with
      | none => simp
      | some d =>
          cases hst : stepResult d with
          | ok p => simp [hst, alookup_ainsert_self]
          | error e => simp [hst, alookup_ainsert_self]

theorem pollOne_own_dev (st : OperState) (device_id : String)
    (info : DeviceInfo) (now : Nat) :
    alookup (pollOne st device_id info now).devices device_id =
      (match effHandle st device_id info with
       | none => alookup st.devices device_id
       | some d =>
           match stepResult d with
           | Except.ok _ => some d
           | Except.error _ => none) := by
  unfold pollOne pollConnected effHandle
  cases hdev : alookup st.devices device_id with
  | some d =>
      cases hst : stepResult d with
      | ok p => simp [hst, hdev]
      | error e => simp [hst, alookup_aremove_self]
  | none =>
      cases loadOutcome info 3 with
      | none => simp [hdev]
      | some d =>
          cases hst : stepResult d with
          | ok p => simp [hst, alookup_ainsert_self]
          | error e => simp [hst, alookup_aremove_self]

theorem effHandle_congr (st st' : OperState) (device_id : String)
    (info : DeviceInfo)
    (h : alookup st'.devices device_id = alookup st.devices device_id) :
    effHandle st' device_id info = effHandle st device_id info := by
  unfold effHandle
  rw [h]

theorem foldl_pollOne_frame (now : Nat) (l : List (String × DeviceInfo))
    (st : OperState) (id : String)
    (hkey : id ∉ l.map Prod.fst) :
    alookup (l.foldl (fun s pr => pollOne s pr.1 pr.2 now) st).status_cache id =
      alookup st.status_cache id ∧
    alookup (l.foldl (fun s pr => pollOne s pr.1 pr.2 now) st).devices id =
      alookup st.devices id := by
  induction l generalizing st with
  | nil => exact ⟨rfl, rfl⟩
  | cons hd tl ih =>
      obtain ⟨k, i⟩ := hd
      have hne : id ≠ k := by
        intro h
        exact hkey (by simp [h])
      have hkey' : id ∉ tl.map Prod.fst := by
        intro h
        exact hkey (by simp [h])
      have := ih (pollOne st k i now) hkey'
      simp only [List.foldl_cons] at *
      refine ⟨?_, ?_⟩
      · rw [this.1, pollOne_frame_cache st k i now id hne]
      · rw [this.2, pollOne_frame_dev st k i now id hne]

theorem foldl_pollOne_spec (now : Nat) (l : List (String × DeviceInfo))
    (st : OperState) (id : String) (info : DeviceInfo)
    (hnd : (l.map Prod.fst).Nodup) (hmem : (id, info) ∈ l) :
    alookup (l.foldl (fun s pr => pollOne s pr.1 pr.2 now) st).status_cache id =
      alookup (pollOne st id info now).status_cache id ∧
    alookup (l.foldl (fun s pr => pollOne s pr.1 pr.2 now) st).devices id =
      alookup (pollOne st id info now).devices id := by
  induction l generalizing st with
  | nil => cases hmem
  | cons hd tl ih =>
      obtain ⟨k, i⟩ := hd
      simp only [List.map_cons, List.nodup_cons] at hnd
      rcases List.mem_cons.mp hmem with hhd | htl
      · injection hhd with hk2 hi2
        subst hk2
        subst hi2
        have hkey : id ∉ tl.map Prod.fst := hnd.1
        simp only [List.foldl_cons]
        exact foldl_pollOne_frame now tl (pollOne st id info now) id hkey
      · have hkid : k ≠ id := by
          intro h
          subst h
          exact hnd.1 (List.mem_map_of_mem Prod.fst htl)
      -- the head is a different device: its poll leaves id's entries alone
        have hcache := pollOne_frame_cache st k i now id (Ne.symm hkid)
        have hdev := pollOne_frame_dev st k i now id (Ne.symm hkid)
        have hrec := ih (pollOne st k i now) hnd.2 htl
        simp only [List.foldl_cons]
        have heff := effHandle_congr st (pollOne st k i now) id info hdev
        refine ⟨?_, ?_⟩
        · rw [hrec.1, pollOne_own_cache, pollOne_own_cache, heff, hcache]
        · rw [hrec.2, pollOne_own_dev, pollOne_own_dev, heff, hdev]

/-- Claim C2 (amended): in one polling cycle over distinct
active-and-paired device ids, each device's outcome is determined by its
own map entry and info (isolation): if no handle exists and
`_load_device` fails, the device is skipped — its cache entry and map
entry are left exactly as they were (no error-flagged status is
written); if a handle is at hand and reconnect-or-get raises, the cache
ends with the error-flagged status (`state` and `heater` "error",
`mode` "unknown", numeric fields 0, `error` set) and the id is dropped
from the connected map; if `get()` succeeds the cache ends with the
fresh status and the handle stays in the map. -/
theorem poll_cycle_isolation (st : OperState) (rows : List DeviceInfo)
    (now : Nat) (id : String) (info : DeviceInfo)
    (hnd : ((get_connected_devices rows).map Prod.fst).Nodup)
    (hmem : (id, info) ∈ get_connected_devices rows) :
    (effHandle st id info = none →
      alookup (updateDevicesStatus st rows now).status_cache id =
        alookup st.status_cache id ∧
      alookup (updateDevicesStatus st rows now).devices id = none) ∧
    (∀ d p, effHandle st id info = some d → stepResult d = Except.ok p →
      alookup (updateDevicesStatus st rows now).status_cache id =
        some (mkPolledStatus id p now) ∧
      alookup (updateDevicesStatus st rows now).devices id = some d) ∧
    (∀ d e, effHandle st id info = some d → stepResult d = Except.error e →
      alookup (updateDevicesStatus st rows now).status_cache id =
        some (mkErrStatus id (errStr e) now) ∧
      alookup (updateDevicesStatus st rows now).devices id = none) := by
  have hfold := foldl_pollOne_spec now (get_connected_devices rows) st id info hnd hmem
  have hcache := pollOne_own_cache st id info now
  have hdev := pollOne_own_dev st id info now
  have hup : updateDevicesStatus st rows now =
      (get_connected_devices rows).foldl (fun s pr => pollOne s pr.1 pr.2 now) st := rfl
  refine ⟨?_, ?_, ?_⟩
  · intro hnone
    have hdevnone : alookup st.devices id = none := by
      unfold effHandle at hnone
      cases hh : alookup st.devices id with
      | some d => rw [hh] at hnone; cases hnone
      | none => rfl
    rw [hup, hfold.1, hfold.2, hcache, hdev]
    simp [hnone, hdevnone]
  · intro d p hsome hok
    rw [hup, hfold.1, hfold.2, hcache, hdev]
    simp [hsome, hok]
  · intro d e hsome herr
    rw [hup, hfold.1, hfold.2, hcache, hdev]
    simp [hsome, herr]

/-- Counterexample to claim C2 as stated: device "d1" is reported
active-and-paired, its connected-map entry cannot be ensured
(`_load_device` returns `None`), yet the cycle ends with NO status-cache
entry for it at all — not with an error-flagged `DeviceStatus` as the
claim requires. -/
theorem poll_cycle_counterexample :
    loadOutcome wInfoNoLoad 3 = none ∧
    (wInfoNoLoad.is_active && wInfoNoLoad.is_paired) = true ∧
    alookup (updateDevicesStatus { devices := [], status_cache := [] }
      [wInfoNoLoad] 0).status_cache "d1" = none := by
  refine ⟨rfl, rfl, rfl⟩

/-- Witness for C2 (amended) at the spec's two-device isolation example:
device "a"'s `get()` raises and device "b"'s succeeds; after the cycle
"a" holds the error-flagged status and is out of the map, while "b"
holds the fresh status and keeps its handle. -/
theorem poll_cycle_isolation_witness :
    ((get_connected_devices [wInfoA, wInfoB]).map Prod.fst).Nodup ∧
    alookup (updateDevicesStatus wPollSt [wInfoA, wInfoB] 7).status_cache "a" =
      some (mkErrStatus "a" "boom" 7) ∧
    alookup (updateDevicesStatus wPollSt [wInfoA, wInfoB] 7).devices "a" = none ∧
    alookup (updateDevicesStatus wPollSt [wInfoA, wInfoB] 7).status_cache "b" =
      some (mkPolledStatus "b" wProps 7) ∧
    alookup (updateDevicesStatus wPollSt [wInfoA, wInfoB] 7).devices "b" =
      some wHandleB := by
  have hnd : ((get_connected_devices [wInfoA, wInfoB]).map Prod.fst).Nodup := by
    simp [get_connected_devices, wInfoA, wInfoB]
  have hA := poll_cycle_isolation wPollSt [wInfoA, wInfoB] 7 "a" wInfoA hnd
    (by exact List.mem_cons_self _ _)
  have hB := poll_cycle_isolation wPollSt [wInfoA, wInfoB] 7 "b" wInfoB hnd
    (by exact List.mem_cons.mpr (Or.inr (List.mem_cons_self _ _)))
  have hA2 := hA.2.2 wHandleA (PyError.deviceError "boom") rfl rfl
  have hB2 := hB.2.1 wHandleB wProps rfl rfl
  exact ⟨hnd, hA2.1, hA2.2, hB2.1, hB2.2⟩

/-- Counterexample to claim C7 as stated: `d1` is connected and a forced
refresh returns a property set merely missing the `fan_speed` key; the
claim requires the missing key to default to 0 and the read to succeed,
but `get_device_status` raises `KeyError("fan_speed")`. -/
theorem get_device_status_counterexample :
    wPropsNoFan.fan_speed = none ∧
    getDeviceStatus wStNoFan "d1" true 5 =
      Except.error (PyError.keyError "fan_speed") := by
  exact ⟨rfl, rfl⟩

/-- Claim C7 (amended): on a status read requiring a refresh (forced, or
no cache entry) from a connected handle, only the `mode`, `sound` and
`light` keys may be absent (defaulting to "outside" / "off" / "off");
the seven keys `state`, `fan_speed`, `heater`, `heater_temp`,
`in_temp`, `out_temp`, `filter_remain` are read with bare indexing, and
when all are present the read maps them into a `DeviceStatus`, stamps
`last_updated = now`, overwrites the cache entry, and returns it
without error. -/
theorem get_device_status_refresh (st : OperState) (id : String)
    (force : Bool) (now : Nat) (dev : Handle) (p : Props)
    (s h : String) (fs ht it ot fr : Int)
    (hdev : alookup st.devices id = some dev)
    (hget : dev.getResult = Except.ok p)
    (hrefresh : force = true ∨ alookup st.status_cache id = none)
    (hstate : p.state = some s) (hfan : p.fan_speed = some fs)
    (hheater : p.heater = some h) (htemp : p.heater_temp = some ht)
    (hin : p.in_temp = some it) (hout : p.out_temp = some ot)
    (hfil : p.filter_remain = some fr) :
    ∃ D : DeviceStatus,
      getDeviceStatus st id force now =
        Except.ok (D, { st with status_cache := ainsert st.status_cache id D }) ∧
      D = { device_id := id, state := s, fan_speed := fs,
            heater_status := h, heater_temp := ht,
            mode := p.mode.getD "outside", in_temp := it, out_temp := ot,
            filter_remain := fr, sound := p.sound.getD "off",
            light := p.light.getD "off", last_updated := now,
            error := none } := by
  have hcond : (force || (alookup st.status_cache id).isNone) = true := by
    rcases hrefresh with h1 | h1
    · simp [h1]
    · simp [h1]
  refine ⟨_, ?_, rfl⟩
  have hfresh : mkFreshStatus id p now =
      Except.ok
        { device_id := id, state := s, fan_speed := fs,
          heater_status := h, heater_temp := ht,
          mode := p.mode.getD "outside", in_temp := it, out_temp := ot,
          filter_remain := fr, sound := p.sound.getD "off",
          light := p.light.getD "off", last_updated := now,
          error := none } := by
    unfold mkFreshStatus dictIndex
    rw [hstate, hfan, hheater, htemp, hin, hout, hfil]
    rfl
  unfold getDeviceStatus
  rw [hcond]
  simp only [if_true]
  rw [hdev]
  simp only [hget, hfresh]

/-- Witness for C7 (amended) at a concrete input: a forced refresh of
"b" in `wPollSt` maps `wProps` into a fresh status, caches it, and
returns it without error. -/
theorem get_device_status_refresh_witness :
    alookup wPollSt.devices "b" = some wHandleB ∧
    wHandleB.getResult = Except.ok wProps ∧
    ∃ D : DeviceStatus,
      getDeviceStatus wPollSt "b" true 9 =
        Except.ok (D, { wPollSt with
          status_cache := ainsert wPollSt.status_cache "b" D }) ∧
      D = { device_id := "b", state := "on", fan_speed := 2,
            heater_status := "on", heater_temp := 22, mode := "outside",
            in_temp := 5, out_temp := 18, filter_remain := 90,
            sound := "off", light := "off", last_updated := 9,
            error := none } := by
  refine ⟨rfl, rfl, ?_⟩
  exact get_device_status_refresh wPollSt "b" true 9 wHandleB wProps
    "on" "on" 2 22 5 18 90 rfl rfl (Or.inl rfl) rfl rfl rfl rfl rfl rfl rfl

theorem tleb_iff (a b : TimeOfDay) (ha : a.minute < 60) (hb : b.minute < 60) :
    tleb a b = true ↔ tmin a ≤ tmin b := by
  unfold tleb tmin
  simp only [Bool.or_eq_true, Bool.and_eq_true, decide_eq_true_eq]
  omega

theorem parseHM_bounds (s : String) (t : TimeOfDay) (h : parseHM s = some t) :
    t.hour < 24 ∧ t.minute < 60 := by
  simp only [parseHM] at h
  split at h
  · cases h
  · split at h
    · split at h
      · injection h with h2
        subst h2
        rename_i hcond
        simp only [Bool.and_eq_true, decide_eq_true_eq] at hcond
        exact hcond
      · cases h
    · cases h

/-- Claim C6: for an active scenario with a time trigger whose start and
end parse as hour:minute times of day, the trigger fires exactly on the
inclusive window — `start ≤ now ≤ end` when `start ≤ end`, and the
midnight-wrapping `now ≥ start ∨ now ≤ end` when `start > end` (windows
measured in minutes since midnight). -/
theorem time_trigger_window (st : OperState) (scn : Scen) (now : TimeOfDay)
    (nowT : Nat) (s1 s2 : String) (t1 t2 : TimeOfDay)
    (ha : scn.is_active = true) (ht : scn.trigger_type = "time")
    (h1 : scn.trigger_params.startP = some s1)
    (h2 : scn.trigger_params.endP = some s2)
    (hp1 : parseHM s1 = some t1) (hp2 : parseHM s2 = some t2)
    (hnow : now.minute < 60) :
    ∃ b : Bool, shouldExecuteScen st scn now nowT = Except.ok (b, st) ∧
      (tmin t1 ≤ tmin t2 →
        (b = true ↔ (tmin t1 ≤ tmin now ∧ tmin now ≤ tmin t2))) ∧
      (tmin t2 < tmin t1 →
        (b = true ↔ (tmin t1 ≤ tmin now ∨ tmin now ≤ tmin t2))) := by
  have hb1 := parseHM_bounds s1 t1 hp1
  have hb2 := parseHM_bounds s2 t2 hp2
  have hss : shouldExecuteScen st scn now nowT =
      (if tleb t1 t2 then Except.ok ((tleb t1 now && tleb now t2), st)
       else Except.ok ((tleb t1 now || tleb now t2), st)) := by
    unfold shouldExecuteScen
    simp [ha, ht, h1, h2, hp1, hp2]
  by_cases htb : tleb t1 t2 = true
  · refine ⟨tleb t1 now && tleb now t2, by rw [hss]; simp [htb], ?_, ?_⟩
    · intro _
      rw [Bool.and_eq_true, tleb_iff t1 now hb1.2 hnow,
        tleb_iff now t2 hnow hb2.2]
    · intro hlt
      exact absurd ((tleb_iff t1 t2 hb1.2 hb2.2).mp htb) (by omega)
  · have htb' : tleb t1 t2 = false := by
      rwa [Bool.not_eq_true] at htb
    refine ⟨tleb t1 now || tleb now t2, by rw [hss]; simp [htb'], ?_, ?_⟩
    · intro hle
      exact absurd ((tleb_iff t1 t2 hb1.2 hb2.2).mpr hle) (by simp [htb'])
    · intro _
      rw [Bool.or_eq_true, tleb_iff t1 now hb1.2 hnow,
        tleb_iff now t2 hnow hb2.2]

/-- Witness for C6 at the spec's wrap example: a 22:00-06:00 window
fires at 23:30. -/
theorem time_trigger_window_witness :
    shouldExecuteScen { devices := [], status_cache := [] } wTimeScn
      { hour := 23, minute := 30 } 0 =
      Except.ok (true, { devices := [], status_cache := [] }) := by
  obtain ⟨b, heq, _, hwrap⟩ :=
    time_trigger_window { devices := [], status_cache := [] } wTimeScn
      { hour := 23, minute := 30 } 0 "22:00" "06:00"
      { hour := 22, minute := 0 } { hour := 6, minute := 0 }
      rfl rfl rfl rfl rfl rfl (by decide)
  have hb : b = true := (hwrap (by decide)).mpr (Or.inl (by decide))
  rw [hb] at heq
  exact heq

/-- Counterexample to claim C4 as stated: an active sensor trigger whose
device has no cached status and no loaded handle does not yield `false`
— `get_device_status` raises `ValueError` and the error escapes
`_should_execute_scenario`. -/
theorem sensor_trigger_counterexample :
    shouldExecuteScen { devices := [], status_cache := [] } wSensorScn
      { hour := 12, minute := 0 } 0 =
      Except.error (PyError.valueError "Device dx not loaded") := by
  rfl

/-- Claim C4 (amended): for an active sensor trigger, an unknown sensor
field name fails closed (the trigger does not fire and no error
escapes), but a missing status does NOT fail closed: when the trigger's
device has no cached status and no loaded handle, the `ValueError`
raised by the status read escapes the evaluator. -/
theorem sensor_trigger_fail_closed (st : OperState) (scn : Scen)
    (now : TimeOfDay) (nowT : Nat) (d : String)
    (ha : scn.is_active = true) (ht : scn.trigger_type = "sensor")
    (hd : scn.trigger_params.device_id = some d) (hdne : d ≠ "") :
    (alookup st.status_cache d = none → alookup st.devices d = none →
      shouldExecuteScen st scn now nowT =
        Except.error (PyError.valueError ("Device " ++ d ++ " not loaded"))) ∧
    (∀ status name t, alookup st.status_cache d = some status →
      scn.trigger_params.sensor = some name →
      scn.trigger_params.threshold = some t →
      getAttr status name = none →
      shouldExecuteScen st scn now nowT = Except.ok (false, st)) := by
  constructor
  · intro hcache hdevn
    unfold shouldExecuteScen getDeviceStatus
    simp [ha, ht, hd, hdne, hcache, hdevn]
  · intro status name t hcache hsensor hthr hattr
    unfold shouldExecuteScen getDeviceStatus
    simp [ha, ht, hd, hdne, hcache, hsensor, hthr, hattr]

/-- Witness for C4 (amended): with a cached status for "d1" and the
unknown sensor name "humidity", the trigger does not fire and the state
is unchanged. -/
theorem sensor_trigger_fail_closed_witness :
    shouldExecuteScen wSensorCachedSt wSensorUnknownScn
      { hour := 12, minute := 0 } 0 = Except.ok (false, wSensorCachedSt) := by
  exact (sensor_trigger_fail_closed wSensorCachedSt wSensorUnknownScn
      { hour := 12, minute := 0 } 0 "d1" rfl rfl rfl (by decide)).2
    (mkPolledStatus "d1" wProps 3) "humidity" 40 rfl rfl rfl rfl

/-- Claim C8: when the scenario's action command is `set_mode` while the
target device's capability set has `mode_control = false`, or `set_temp`
while `temperature_control = false`, `execute_scenario` returns false
and the device handle's `set()` is never invoked. -/
theorem capability_gate (rows : List Scen) (registry : List DeviceInfo)
    (devices : List (String × Handle)) (sid : Int) (now : Nat)
    (scn : Scen) (dk : String) (c : Caps)
    (hrow : get_scenario rows sid = some scn)
    (hd : scn.action_params.device_id = some dk)
    (hcaps : get_device_capabilities registry dk = some c)
    (hcmd : (scn.action_params.command = some "set_mode" ∧
             c.mode_control = false) ∨
            (scn.action_params.command = some "set_temp" ∧
             c.temperature_control = false)) :
    (executeScen rows registry devices sid now).result = false ∧
    (executeScen rows registry devices sid now).setCalled = false := by
  unfold executeScen
  cases hval : validate_action_params scn.action_params with
  | false => simp [hrow, hval]
  | true =>
      cases hdev : alookup devices dk with
      | none => simp [hrow, hval, hd, hdev]
      | some dev =>
          rcases hcmd with ⟨hc, hm⟩ | ⟨hc, hm⟩
          · have htry : execTry (get_device_capabilities registry dk)
                scn.action_params dev = (Except.ok TryOut.blocked, false) := by
              unfold execTry
              rw [hc, hcaps]
              simp [hm]
            simp [hrow, hval, hd, hdev, htry]
          · have htry : execTry (get_device_capabilities registry dk)
                scn.action_params dev = (Except.ok TryOut.blocked, false) := by
              unfold execTry
              rw [hc, hcaps]
              simp [hm]
            simp [hrow, hval, hd, hdev, htry]

/-- Witness for C8: device "d1" of type "TionS3" (no mode control), a
scenario commanding `set_mode` on it, handle connected — execution
returns false without calling `set`. -/
theorem capability_gate_witness :
    get_device_capabilities [wRegS3] "d1" = some wCapsS3 ∧
    wCapsS3.mode_control = false ∧
    (executeScen [wModeScn] [wRegS3] [("d1", wHandleB)] 1 9).result = false ∧
    (executeScen [wModeScn] [wRegS3] [("d1", wHandleB)] 1 9).setCalled = false := by
  refine ⟨by decide, rfl, ?_⟩
  exact capability_gate [wModeScn] [wRegS3] [("d1", wHandleB)] 1 9 wModeScn
    "d1" wCapsS3 rfl rfl (by decide) (Or.inl ⟨rfl, rfl⟩)

/-- Counterexample to claim C1 as stated: a capability mismatch
(`set_mode` on a device without mode control) makes `execute_scenario`
return false, but contrary to the claim none of the three bookkeeping
updates happen — the scenario keeps `execution_count = 0`,
`last_executed = none`, `last_status = none`. -/
theorem execute_tracking_counterexample :
    executeScen [wModeScn] [wRegS3] [("d1", wHandleB)] 1 9 =
      { result := false, scen := some wModeScn, setCalled := false } ∧
    wModeScn.execution_count = 0 ∧
    wModeScn.last_executed = none ∧
    wModeScn.last_status = none := by
  exact ⟨by decide, rfl, rfl, rfl⟩

/-- Claim C1 (amended): when the scenario exists, its action parameters
validate and the target handle is connected, the bookkeeping triple
(`last_executed = now`, `execution_count + 1`, `last_status`) is updated
exactly when the `try` body reaches the device write: with
`last_status = outcome` when `set` returns, and `last_status = false`
when anything in the body raises; a capability mismatch returns false
WITHOUT updating the triple. -/
theorem execute_tracking (rows : List Scen) (registry : List DeviceInfo)
    (devices : List (String × Handle)) (sid : Int) (now : Nat)
    (scn : Scen) (dk : String) (dev : Handle)
    (hrow : get_scenario rows sid = some scn)
    (hval : validate_action_params scn.action_params = true)
    (hd : scn.action_params.device_id = some dk)
    (hdev : alookup devices dk = some dev) :
    (∀ sc, execTry (get_device_capabilities registry dk)
        scn.action_params dev = (Except.ok TryOut.blocked, sc) →
      executeScen rows registry devices sid now =
        { result := false, scen := some scn, setCalled := sc }) ∧
    (∀ b sc, execTry (get_device_capabilities registry dk)
        scn.action_params dev = (Except.ok (TryOut.ran b), sc) →
      executeScen rows registry devices sid now =
        { result := b,
          scen := some
            { scn with
              last_executed := some now,
              execution_count := scn.execution_count + 1,
              last_status := some b },
          setCalled := sc }) ∧
    (∀ e sc, execTry (get_device_capabilities registry dk)
        scn.action_params dev = (Except.error e, sc) →
      executeScen rows registry devices sid now =
        { result := false,
          scen := some
            { scn with
              last_executed := some now,
              execution_count := scn.execution_count + 1,
              last_status := some false },
          setCalled := sc }) := by
  have hbase : executeScen rows registry devices sid now =
      (match execTry (get_device_capabilities registry dk)
          scn.action_params dev with
       | (Except.ok TryOut.blocked, sc) =>
           { result := false, scen := some scn, setCalled := sc }
       | (Except.ok (TryOut.ran b), sc) =>
           { result := b,
             scen := some
               { scn with
                 last_executed := some now,
                 execution_count := scn.execution_count + 1,
                 last_status := some b },
             setCalled := sc }
       | (Except.error _, sc) =>
           { result := false,
             scen := some
               { scn with
                 last_executed := some now,
                 execution_count := scn.execution_count + 1,
                 last_status := some false },
             setCalled := sc }) := by
    unfold executeScen
    simp only [hrow, hval, hd, hdev]
    simp
  refine ⟨?_, ?_, ?_⟩
  · intro sc htry
    rw [hbase, htry]
  · intro b sc htry
    rw [hbase, htry]
  · intro e sc htry
    rw [hbase, htry]

/-- Witness for C1 (amended): a `set_speed` scenario on a connected
handle whose `set` raises — the outcome is false and the bookkeeping
triple is stamped. -/
theorem execute_tracking_witness :
    executeScen [wSpeedScn] [wRegS3] [("d1", wHandleFailSet)] 2 11 =
      { result := false,
        scen := some
          { wSpeedScn with
            last_executed := some 11,
            execution_count := 1,
            last_status := some false },
        setCalled := true } := by
  exact (execute_tracking [wSpeedScn] [wRegS3] [("d1", wHandleFailSet)] 2 11
      wSpeedScn "d1" wHandleFailSet rfl rfl rfl rfl).2.2
    (PyError.deviceError "write failed") true rfl

/-- Claim C10: `execute_scenario` never consults `is_active`
(`get_scenario` does not filter on it), so a soft-deleted scenario with
valid action parameters and a connected target device is still executed
— the device write runs and the outcome is recorded — while the
trigger-evaluation path skips it. -/
theorem inactive_scenario_executes (rows : List Scen)
    (registry : List DeviceInfo) (devices : List (String × Handle))
    (sid : Int) (now : Nat) (scn : Scen) (dk : String) (dev : Handle)
    (b : Bool) (st : OperState) (tod : TimeOfDay) (nowT : Nat)
    (hrow : get_scenario rows sid = some scn)
    (hinact : scn.is_active = false)
    (hval : validate_action_params scn.action_params = true)
    (hd : scn.action_params.device_id = some dk)
    (hdev : alookup devices dk = some dev)
    (htry : execTry (get_device_capabilities registry dk)
      scn.action_params dev = (Except.ok (TryOut.ran b), true)) :
    executeScen rows registry devices sid now =
      { result := b,
        scen := some
          { scn with
            last_executed := some now,
            execution_count := scn.execution_count + 1,
            last_status := some b },
        setCalled := true } ∧
    shouldExecuteScen st scn tod nowT = Except.ok (false, st) := by
  constructor
  · exact (execute_tracking rows registry devices sid now scn dk dev
      hrow hval hd hdev).2.1 b true htry
  · unfold shouldExecuteScen
    simp [hinact]

/-- Witness for C10: a soft-deleted `turn_on` scenario is still executed
by a direct `execute_scenario` call (set invoked, outcome recorded), yet
the trigger loop's evaluation returns false for it. -/
theorem inactive_scenario_executes_witness :
    wInactiveScn.is_active = false ∧
    (get_scenario [wInactiveScn] 3 = some wInactiveScn) ∧
    executeScen [wInactiveScn] [wRegS3] [("d1", wHandleB)] 3 13 =
      { result := true,
        scen := some
          { wInactiveScn with
            last_executed := some 13,
            execution_count := 1,
            last_status := some true },
        setCalled := true } ∧
    shouldExecuteScen { devices := [], status_cache := [] } wInactiveScn
      { hour := 12, minute := 0 } 0 =
      Except.ok (false, { devices := [], status_cache := [] }) := by
  have h := inactive_scenario_executes [wInactiveScn] [wRegS3]
    [("d1", wHandleB)] 3 13 wInactiveScn "d1" wHandleB true
    { devices := [], status_cache := [] } { hour := 12, minute := 0 } 0
    rfl rfl rfl rfl rfl rfl
  exact ⟨rfl, rfl, h.1, h.2⟩

/-- Counterexample to claim C3 as stated: with scenarios
[`wSensorScn`, `wTimeScn`] fetched in one cycle, the first scenario's
evaluation raises (its sensor device "dx" is not loaded) and the second
— which executes successfully when it is the only scenario — is neither
evaluated nor executed in that cycle: the `try` wraps the whole `for`
loop, not each scenario. -/
theorem scenario_cycle_counterexample :
    runScenCycle [wSensorScn, wTimeScn] [] wCycleSt
      { hour := 23, minute := 30 } 0 =
      { st := wCycleSt, executed := [],
        err := some (PyError.valueError "Device dx not loaded") } ∧
    runScenCycle [wTimeScn] [] wCycleSt { hour := 23, minute := 30 } 0 =
      { st := wCycleSt, executed := [(5, true)], err := none } := by
  exact ⟨rfl, rfl⟩

/-- Claim C3 (amended): within one Automation Engine cycle an exception
raised while evaluating one scenario aborts the processing of every
remaining scenario in that cycle; the exception is caught at cycle level
(returned as a value, never crashing the loop), and when evaluation
returns normally the loop does continue with the remaining scenarios. -/
theorem scenario_cycle_abort (rows : List Scen)
    (registry : List DeviceInfo) (st : OperState) (now : TimeOfDay)
    (nowT : Nat) (scn : Scen) (rest : List Scen) :
    (∀ e, shouldExecuteScen st scn now nowT = Except.error e →
      cycleRun rows registry st now nowT (scn :: rest) =
        { st := st, executed := [], err := some e }) ∧
    (∀ st1, shouldExecuteScen st scn now nowT = Except.ok (false, st1) →
      cycleRun rows registry st now nowT (scn :: rest) =
        cycleRun rows registry st1 now nowT rest) ∧
    (∀ st1, shouldExecuteScen st scn now nowT = Except.ok (true, st1) →
      cycleRun rows registry st now nowT (scn :: rest) =
        { st := (cycleRun rows registry st1 now nowT rest).st,
          executed :=
            (scn.id, (executeScen rows registry st1.devices scn.id nowT).result)
              :: (cycleRun rows registry st1 now nowT rest).executed,
          err := (cycleRun rows registry st1 now nowT rest).err }) := by
  refine ⟨?_, ?_, ?_⟩
  · intro e herr
    conv_lhs => rw [cycleRun]
    rw [herr]
  · intro st1 hok
    conv_lhs => rw [cycleRun]
    rw [hok]
    simp
  · intro st1 hok
    conv_lhs => rw [cycleRun]
    rw [hok]
    simp

/-- Witness for C3 (amended): the first scenario's evaluation error
empties the whole cycle. -/
theorem scenario_cycle_abort_witness :
    cycleRun [wSensorScn, wTimeScn] [] wCycleSt { hour := 23, minute := 30 }
      0 [wSensorScn, wTimeScn] =
      { st := wCycleSt, executed := [],
        err := some (PyError.valueError "Device dx not loaded") } := by
  exact (scenario_cycle_abort [wSensorScn, wTimeScn] [] wCycleSt
      { hour := 23, minute := 30 } 0 wSensorScn [wTimeScn]).1
    (PyError.valueError "Device dx not loaded") rfl

theorem device_prefix_ne (id m : String) (hm : m.data.head? ≠ some 'D') :
    (("Device " ++ id ++ " not loaded") == m) = false := by
  rw [beq_eq_false_iff_ne]
  intro h
  apply hm
  rw [← h]
  have hdd : ("Device " : String).data = 'D' :: "evice ".data := rfl
  simp [String.data_append, hdd]

theorem valueError_classify (m : String) (st' : OperState) (sc : Bool) :
    isValidationErr
      { result := Except.error (PyError.valueError m), st := st',
        setCalled := sc } =
      (m == fanSpeedMsg || m == heaterTempMsg || m == stateMsg) := rfl

theorem notLoaded_not_validation (id : String) (st' : OperState) (sc : Bool) :
    isValidationErr
      { result :=
          Except.error (PyError.valueError ("Device " ++ id ++ " not loaded")),
        st := st', setCalled := sc } = false := by
  rw [valueError_classify, device_prefix_ne id fanSpeedMsg (by decide),
    device_prefix_ne id heaterTempMsg (by decide),
    device_prefix_ne id stateMsg (by decide)]
  rfl

theorem set_device_property_not_validation (st : OperState) (id prop : String) :
    isValidationErr (set_device_property st id prop) = false := by
  unfold set_device_property
  cases alookup st.devices id with
  | none => exact notLoaded_not_validation id st false
  | some device =>
      cases hst : device.setResult with
      | ok b => simp [hst, isValidationErr]
      | error e => simp [hst, isValidationErr]

/-- Claim C9: `set_fan_speed` raises its validation `ValueError` exactly
when the speed is outside [0, 6], `set_heater_temp` exactly when the
temperature is outside [10, 30], and `set_device_state` exactly when the
state is neither "on" nor "off"; in every rejected case the state is
untouched and the handle's `set()` is never invoked. -/
theorem setter_validation (st : OperState) (id : String) :
    (∀ speed : Int,
      (isValidationErr (set_fan_speed st id speed) = true ↔
        (speed < 0 ∨ 6 < speed)) ∧
      ((speed < 0 ∨ 6 < speed) →
        set_fan_speed st id speed =
          { result := Except.error (PyError.valueError fanSpeedMsg),
            st := st, setCalled := false })) ∧
    (∀ temp : Int,
      (isValidationErr (set_heater_temp st id temp) = true ↔
        (temp < 10 ∨ 30 < temp)) ∧
      ((temp < 10 ∨ 30 < temp) →
        set_heater_temp st id temp =
          { result := Except.error (PyError.valueError heaterTempMsg),
            st := st, setCalled := false })) ∧
    (∀ state : String,
      (isValidationErr (set_device_state st id state) = true ↔
        (state ≠ "on" ∧ state ≠ "off")) ∧
      ((state ≠ "on" ∧ state ≠ "off") →
        set_device_state st id state =
          { result := Except.error (PyError.valueError stateMsg),
            st := st, setCalled := false })) := by
  refine ⟨?_, ?_, ?_⟩
  · intro speed
    by_cases hr : speed < 0 ∨ 6 < speed
    · have heq : set_fan_speed st id speed =
          { result := Except.error (PyError.valueError fanSpeedMsg),
            st := st, setCalled := false } := by
        unfold set_fan_speed
        rcases hr with h | h
        · simp [h]
        · simp [h]
      refine ⟨?_, fun _ => heq⟩
      rw [heq]
      simp only [isValidationErr, beq_self_eq_true, Bool.true_or, true_iff]
      exact hr
    · have heq : set_fan_speed st id speed =
          set_device_property st id "fan_speed" := by
        unfold set_fan_speed
        push_neg at hr
        have h0 : ¬ speed < 0 := by omega
        have h6 : ¬ 6 < speed := by omega
        simp [h0, h6]
      rw [heq]
      refine ⟨?_, fun hc => absurd hc hr⟩
      rw [set_device_property_not_validation]
      simp only [Bool.false_eq_true, false_iff]
      exact hr
  · intro temp
    by_cases hr : temp < 10 ∨ 30 < temp
    · have heq : set_heater_temp st id temp =
          { result := Except.error (PyError.valueError heaterTempMsg),
            st := st, setCalled := false } := by
        unfold set_heater_temp
        rcases hr with h | h
        · simp [h]
        · simp [h]
      refine ⟨?_, fun _ => heq⟩
      rw [heq]
      simp only [isValidationErr]
      rw [show (heaterTempMsg == fanSpeedMsg) = false from by decide]
      simp only [beq_self_eq_true, Bool.true_or, Bool.false_or, true_iff]
      exact hr
    · have heq : set_heater_temp st id temp =
          set_device_property st id "heater_temp" := by
        unfold set_heater_temp
        push_neg at hr
        have h0 : ¬ temp < 10 := by omega
        have h6 : ¬ 30 < temp := by omega
        simp [h0, h6]
      rw [heq]
      refine ⟨?_, fun hc => absurd hc hr⟩
      rw [set_device_property_not_validation]
      simp only [Bool.false_eq_true, false_iff]
      exact hr
  · intro state
    by_cases hr : state = "on" ∨ state = "off"
    · have heq : set_device_state st id state =
          set_device_property st id "state" := by
        unfold set_device_state
        rcases hr with h | h
        · simp [h]
        · simp [h]
      rw [heq]
      constructor
      · rw [set_device_property_not_validation]
        simp only [Bool.false_eq_true, false_iff]
        intro hc
        rcases hr with h | h
        · exact hc.1 h
        · exact hc.2 h
      · intro hc
        rcases hr with h | h
        · exact absurd h hc.1
        · exact absurd h hc.2
    · push_neg at hr
      have heq : set_device_state st id state =
          { result := Except.error (PyError.valueError stateMsg),
            st := st, setCalled := false } := by
        unfold set_device_state
        simp [hr.1, hr.2]
      refine ⟨?_, fun _ => heq⟩
      rw [heq]
      simp only [isValidationErr]
      rw [show (stateMsg == fanSpeedMsg) = false from by decide,
        show (stateMsg == heaterTempMsg) = false from by decide]
      simp only [beq_self_eq_true, Bool.or_true, Bool.false_or, true_iff]
      exact hr

/-- Witness for C9 at the spec's boundary values: -1 and 7 rejected, 0
and 6 accepted for fan speed; 9 and 31 rejected, 10 and 30 accepted for
heater temperature; "auto" rejected for state; rejections never invoke
`set()`. -/
theorem setter_validation_witness :
    isValidationErr (set_fan_speed wEmptySt "d1" (-1)) = true ∧
    isValidationErr (set_fan_speed wEmptySt "d1" 7) = true ∧
    isValidationErr (set_fan_speed wEmptySt "d1" 0) = false ∧
    isValidationErr (set_fan_speed wEmptySt "d1" 6) = false ∧
    isValidationErr (set_heater_temp wEmptySt "d1" 9) = true ∧
    isValidationErr (set_heater_temp wEmptySt "d1" 31) = true ∧
    isValidationErr (set_heater_temp wEmptySt "d1" 10) = false ∧
    isValidationErr (set_heater_temp wEmptySt "d1" 30) = false ∧
    isValidationErr (set_device_state wEmptySt "d1" "auto") = true ∧
    (set_fan_speed wEmptySt "d1" 7).setCalled = false ∧
    (set_heater_temp wEmptySt "d1" 31).setCalled = false ∧
    (set_device_state wEmptySt "d1" "auto").setCalled = false := by
  have hfan := (setter_validation wEmptySt "d1").1
  have htemp := (setter_validation wEmptySt "d1").2.1
  have hstate := (setter_validation wEmptySt "d1").2.2
  refine ⟨(hfan (-1)).1.mpr (Or.inl (by decide)),
    (hfan 7).1.mpr (Or.inr (by decide)),
    ?_, ?_,
    (htemp 9).1.mpr (Or.inl (by decide)),
    (htemp 31).1.mpr (Or.inr (by decide)),
    ?_, ?_,
    (hstate "auto").1.mpr ⟨by decide, by decide⟩,
    by rw [(hfan 7).2 (Or.inr (by decide))],
    by rw [(htemp 31).2 (Or.inr (by decide))],
    by rw [(hstate "auto").2 ⟨by decide, by decide⟩]⟩
  · exact Bool.eq_false_iff.mpr
      (fun ht => absurd ((hfan 0).1.mp ht) (by decide))
  · exact Bool.eq_false_iff.mpr
      (fun ht => absurd ((hfan 6).1.mp ht) (by decide))
  · exact Bool.eq_false_iff.mpr
      (fun ht => absurd ((htemp 10).1.mp ht) (by decide))
  · exact Bool.eq_false_iff.mpr
      (fun ht => absurd ((htemp 30).1.mp ht) (by decide))

end TionOp

